import Mathlib

/-!
Verification of `website/siteConfig.js`.

The module declares two constants (`baseUrl`, `users`) and one object literal
(`siteConfig`) which it exports.  The object literal is embedded as a value of
`JSValue`: an object is the ordered list of its `key: value` members, an array
the list of its elements, and a template literal with one substitution is the
concatenation of the substituted string and the literal text.
-/

namespace SiteConfig

/-- Values that occur in the object literal of `siteConfig.js`: strings,
booleans, arrays and objects (an object is its members in source order). -/
inductive JSValue where
  | str : String → JSValue
  | bool : Bool → JSValue
  | arr : List JSValue → JSValue
  | obj : List (String × JSValue) → JSValue

namespace JSValue

/-- Property access `v.key`: the member of an object with that key, `none`
(JavaScript `undefined`) when the object has no such member or `v` is no object.
No object of the source repeats a key, so the first member with the key is the
only one. -/
def get (v : JSValue) (key : String) : Option JSValue :=
  match v with
  | obj members => members.lookup key
  | _ => none

/-- The value as a string, when it is one. -/
def asStr : JSValue → Option String
  | str s => some s
  | _ => none

/-- The value as a boolean, when it is one. -/
def asBool : JSValue → Option Bool
  | bool b => some b
  | _ => none

/-- The elements of an array value; a value that is no array has none. -/
def elems : JSValue → List JSValue
  | arr xs => xs
  | _ => []

/-- The test `key in v`: the object has a member with that key. -/
def has (v : JSValue) (key : String) : Bool :=
  (v.get key).isSome

/-- String member `v.key`, when present and a string. -/
def getStr (v : JSValue) (key : String) : Option String :=
  (v.get key).bind asStr

end JSValue

open JSValue

/-- Line 14: `const baseUrl = '/';` -/
def baseUrl : String := "/"

/-- Line 17: `const users = [];` -/
def users : List JSValue := []

/-- Lines 19-102: the object literal bound to `siteConfig`, as a function of the
value of the module constant `baseUrl` it is built from (the comment on line 13
says the constant is there to be modified).  Each template literal
`${baseUrl}rest` is `baseUrl ++ "rest"`. -/
def siteConfigWith (baseUrl : String) : JSValue :=
  obj [
    ("title", str "PyTorch-DP"),
    ("tagline", str "Train PyTorch models with Differential Privacy"),
    ("url", str "https://facebookresearch.github.io/pytorch-dp"),
    ("baseUrl", str baseUrl),
    ("cleanUrl", bool true),
    ("organizationName", str "pytorch"),
    ("projectName", str "pytorch-dp"),
    ("gaTrackingId", str "UA-139570076-2"),
    ("headerLinks", arr [
      obj [("doc", str "introduction"), ("label", str "Getting Started")],
      obj [("href", str (baseUrl ++ "tutorials/")), ("label", str "Tutorials")],
      obj [("href", str (baseUrl ++ "api/")), ("label", str "API Reference")],
      obj [("href", str "https://github.com/facebookresearch/pytorch-dp"),
           ("label", str "GitHub")],
      obj [("search", bool true)]]),
    ("users", arr users),
    ("algolia", obj [
      ("apiKey", str "207c27d819f967749142d8611de7cb19"),
      ("indexName", str "pytorch-dp")]),
    ("headerIcon", str "img/pytorch-dp_logo.png"),
    ("favicon", str "img/pytorch-dp.ico"),
    ("colors", obj [
      ("primaryColor", str "#4283f4"),
      ("secondaryColor", str "#2af2bf")]),
    ("highlight", obj [("theme", str "default")]),
    ("scripts", arr [
      str "https://buttons.github.io/buttons.js",
      str (baseUrl ++ "js/code_block_buttons.js"),
      str "https://cdnjs.cloudflare.com/ajax/libs/clipboard.js/2.0.0/clipboard.min.js",
      str (baseUrl ++ "js/mathjax.js"),
      str "https://cdnjs.cloudflare.com/ajax/libs/mathjax/2.7.5/latest.js?config=TeX-AMS_HTML"]),
    ("stylesheets", arr [str (baseUrl ++ "css/code_block_buttons.css")]),
    ("onPageNav", str "separate"),
    ("scrollToTop", bool true),
    ("docsSideNavCollapsible", bool true),
    ("editUrl", str "https://github.com/facebookresearch/pytorch-dp/tree/master/docs/"),
    ("disableHeaderTitle", bool true),
    ("ogImage", str "img/pytorch-dp-icon.png"),
    ("twitterImage", str "img/pytorch-dp_logo.png"),
    ("wrapPagesHTML", bool true)]

/-- Line 19: `const siteConfig = {...}` with the declared `baseUrl`; line 104
exports this value (`module.exports = siteConfig`). -/
def siteConfig : JSValue := siteConfigWith baseUrl

/-- The array `headerLinks` of a configuration. -/
def headerLinks (c : JSValue) : List JSValue :=
  ((c.get "headerLinks").map elems).getD []

/-- The strings of the array member `key` of a configuration (`scripts`,
`stylesheets`); an element that is no string is kept as `none`. -/
def stringArray (c : JSValue) (key : String) : List (Option String) :=
  (((c.get key).map elems).getD []).map asStr

/-- A URL is absolute when it contains a scheme separator, the substring `://`. -/
def isAbsolute (s : String) : Prop := "://".data <:+: s.data

instance (s : String) : Decidable (isAbsolute s) := by
  unfold isAbsolute; infer_instance

/-- String `p` is a prefix of string `s`. -/
def hasPrefix (p s : String) : Prop := p.data <+: s.data

instance (p s : String) : Decidable (hasPrefix p s) := by
  unfold hasPrefix; infer_instance

/-- String `p` is a suffix of string `s`. -/
def hasSuffix (p s : String) : Prop := p.data <:+ s.data

instance (p s : String) : Decidable (hasSuffix p s) := by
  unfold hasSuffix; infer_instance

/-- The fields that tell the shapes of a header link apart: `doc` (a link to a
documentation page), `href` (a link to a URL) and `search` (the search box). -/
def discriminators : List String := ["doc", "href", "search"]

/-- The discriminating fields present on a header-link entry. -/
def variantsOf (e : JSValue) : List String := discriminators.filter e.has

/-- An entry with `doc` present. -/
def isDocLink (e : JSValue) : Bool := e.has "doc"

/-- An entry with `href` present. -/
def isExternalLink (e : JSValue) : Bool := e.has "href"

/-- An entry with `search: true`. -/
def isSearchSlot (e : JSValue) : Bool := (e.get "search").bind asBool == some true

/-- The error kinds of the specification's validator. -/
inductive ErrorKind where
  | MissingField | TypeMismatch | PatternMismatch
  | InvalidEnumValue | DuplicateSlot | AmbiguousVariant
  deriving DecidableEq, Repr

/-- Modelled from the spec: rule 4 of `validate` (section 4.1), a function the
source does not contain: "`headerLinks` contains at most one `SearchSlot`", with
a `DuplicateSlot` error for a sequence holding two or more. -/
def validateRule4 (c : JSValue) : List ErrorKind :=
  if (headerLinks c).countP isSearchSlot ≤ 1 then [] else [ErrorKind.DuplicateSlot]

/-- The URLs the object literal builds with a template literal on `baseUrl`, by
position: the `href` of `headerLinks[1]` and `headerLinks[2]` (lines 36-37),
`scripts[1]` and `scripts[3]` (lines 71, 74) and `stylesheets[0]` (line 79). -/
def builtFromBaseUrl (c : JSValue) : List (Option String) :=
  [ ((headerLinks c)[1]?).bind (fun e => e.getStr "href"),
    ((headerLinks c)[2]?).bind (fun e => e.getStr "href"),
    ((stringArray c "scripts")[1]?).join,
    ((stringArray c "scripts")[3]?).join,
    ((stringArray c "stylesheets")[0]?).join ]

/-- The header link labelled `label`, the first one when there are several. -/
def linkLabelled (c : JSValue) (label : String) : Option JSValue :=
  (headerLinks c).find? (fun e => e.getStr "label" == some label)

/-- The text `u` is `scheme "://" host path`: scheme and host are non-empty, the
host holds no `/`, and the path is empty or starts with `/`. -/
def urlShape (u scheme host path : String) : Prop :=
  u.data = scheme.data ++ "://".data ++ host.data ++ path.data ∧
    scheme.data ≠ [] ∧ host.data ≠ [] ∧ '/' ∉ host.data ∧
    (path.data = [] ∨ path.data.head? = some '/')

end SiteConfig

namespace SiteConfig

open JSValue

/-! Shared lemmas -/

/-- The header links of the configuration built from `b`, entry by entry. -/
theorem headerLinks_siteConfigWith (b : String) :
    headerLinks (siteConfigWith b) =
      [ obj [("doc", str "introduction"), ("label", str "Getting Started")],
        obj [("href", str (b ++ "tutorials/")), ("label", str "Tutorials")],
        obj [("href", str (b ++ "api/")), ("label", str "API Reference")],
        obj [("href", str "https://github.com/facebookresearch/pytorch-dp"),
             ("label", str "GitHub")],
        obj [("search", bool true)] ] := rfl

/-- The scripts of the configuration built from `b`. -/
theorem scripts_siteConfigWith (b : String) :
    stringArray (siteConfigWith b) "scripts" =
      [ some "https://buttons.github.io/buttons.js",
        some (b ++ "js/code_block_buttons.js"),
        some "https://cdnjs.cloudflare.com/ajax/libs/clipboard.js/2.0.0/clipboard.min.js",
        some (b ++ "js/mathjax.js"),
        some "https://cdnjs.cloudflare.com/ajax/libs/mathjax/2.7.5/latest.js?config=TeX-AMS_HTML" ] :=
  rfl

/-- The stylesheets of the configuration built from `b`. -/
theorem stylesheets_siteConfigWith (b : String) :
    stringArray (siteConfigWith b) "stylesheets" = [some (b ++ "css/code_block_buttons.css")] :=
  rfl

/-- A string is a prefix of itself followed by anything. -/
theorem hasPrefix_append (b rest : String) : hasPrefix b (b ++ rest) := by
  unfold hasPrefix
  rw [String.data_append]
  exact List.prefix_append _ _

/-- Every literal URL of the configuration that is not built from `baseUrl`
contains `://`. -/
theorem literal_urls_absolute :
    isAbsolute "https://github.com/facebookresearch/pytorch-dp" ∧
    isAbsolute "https://buttons.github.io/buttons.js" ∧
    isAbsolute "https://cdnjs.cloudflare.com/ajax/libs/clipboard.js/2.0.0/clipboard.min.js" ∧
    isAbsolute
      "https://cdnjs.cloudflare.com/ajax/libs/mathjax/2.7.5/latest.js?config=TeX-AMS_HTML" :=
  ⟨⟨"https".data, "github.com/facebookresearch/pytorch-dp".data, rfl⟩,
   ⟨"https".data, "buttons.github.io/buttons.js".data, rfl⟩,
   ⟨"https".data, "cdnjs.cloudflare.com/ajax/libs/clipboard.js/2.0.0/clipboard.min.js".data, rfl⟩,
   ⟨"https".data,
    "cdnjs.cloudflare.com/ajax/libs/mathjax/2.7.5/latest.js?config=TeX-AMS_HTML".data, rfl⟩⟩

/-! C1: relative URLs are built on `baseUrl` -/

/-- C1: for every string `b` taken as the value of the constant `baseUrl`, each
entry of `scripts`, each entry of `stylesheets` and each `href` of a
`headerLinks` entry is a string that contains `://` or has `b` as a prefix; the
two relative header links, the two relative scripts and the stylesheet are `b`
followed by `tutorials/`, `api/`, `js/code_block_buttons.js`, `js/mathjax.js`
and `css/code_block_buttons.css`; and the member `baseUrl` is `b`. -/
theorem C1_relative_urls_on_baseUrl (b : String) :
    (∀ s ∈ stringArray (siteConfigWith b) "scripts",
        ∃ u, s = some u ∧ (isAbsolute u ∨ hasPrefix b u)) ∧
    (∀ s ∈ stringArray (siteConfigWith b) "stylesheets",
        ∃ u, s = some u ∧ (isAbsolute u ∨ hasPrefix b u)) ∧
    (∀ e ∈ headerLinks (siteConfigWith b), ∀ u, e.getStr "href" = some u →
        (isAbsolute u ∨ hasPrefix b u)) ∧
    (headerLinks (siteConfigWith b)).map (fun e => e.getStr "href") =
      [none, some (b ++ "tutorials/"), some (b ++ "api/"),
       some "https://github.com/facebookresearch/pytorch-dp", none] ∧
    builtFromBaseUrl (siteConfigWith b) =
      [some (b ++ "tutorials/"), some (b ++ "api/"), some (b ++ "js/code_block_buttons.js"),
       some (b ++ "js/mathjax.js"), some (b ++ "css/code_block_buttons.css")] ∧
    (siteConfigWith b).getStr "baseUrl" = some b := by
  obtain ⟨hGit, hButtons, hClip, hMath⟩ := literal_urls_absolute
  refine ⟨?_, ?_, ?_, rfl, rfl, rfl⟩
  · intro s hs
    rw [scripts_siteConfigWith] at hs
    simp only [List.mem_cons, List.mem_singleton, List.not_mem_nil, or_false] at hs
    rcases hs with rfl | rfl | rfl | rfl | rfl
    · exact ⟨_, rfl, Or.inl hButtons⟩
    · exact ⟨_, rfl, Or.inr (hasPrefix_append b _)⟩
    · exact ⟨_, rfl, Or.inl hClip⟩
    · exact ⟨_, rfl, Or.inr (hasPrefix_append b _)⟩
    · exact ⟨_, rfl, Or.inl hMath⟩
  · intro s hs
    rw [stylesheets_siteConfigWith] at hs
    simp only [List.mem_cons, List.mem_singleton, List.not_mem_nil, or_false] at hs
    subst hs
    exact ⟨_, rfl, Or.inr (hasPrefix_append b _)⟩
  · intro e he u hu
    rw [headerLinks_siteConfigWith] at he
    simp only [List.mem_cons, List.mem_singleton, List.not_mem_nil, or_false] at he
    rcases he with rfl | rfl | rfl | rfl | rfl
    · exact absurd hu (by intro h; cases h)
    · cases (Option.some.inj hu : b ++ "tutorials/" = u)
      exact Or.inr (hasPrefix_append b _)
    · cases (Option.some.inj hu : b ++ "api/" = u)
      exact Or.inr (hasPrefix_append b _)
    · cases (Option.some.inj hu : "https://github.com/facebookresearch/pytorch-dp" = u)
      exact Or.inl hGit
    · exact absurd hu (by intro h; cases h)

/-! C2: at most one search slot -/

/-- C2: for every value `b` of `baseUrl`, `headerLinks` holds at most one entry
with `search: true`, and rule 4 of the validator reports no `DuplicateSlot` (no
error at all) on the configuration. -/
theorem C2_at_most_one_search_slot (b : String) :
    (headerLinks (siteConfigWith b)).countP isSearchSlot ≤ 1 ∧
    ErrorKind.DuplicateSlot ∉ validateRule4 (siteConfigWith b) ∧
    validateRule4 (siteConfigWith b) = [] := by
  have hcount : (headerLinks (siteConfigWith b)).countP isSearchSlot = 1 := rfl
  have hrule : validateRule4 (siteConfigWith b) = [] := by
    unfold validateRule4
    rw [hcount]
    rfl
  refine ⟨by rw [hcount], ?_, hrule⟩
  rw [hrule]
  exact List.not_mem_nil _

/-! C3: each header link has exactly one shape -/

/-- C3: every entry of `headerLinks` carries exactly one of the discriminating
fields `doc`, `href` and `search`, hence is exactly one of a doc link, an
external link and a search slot. -/
theorem C3_exactly_one_variant (b : String) (e : JSValue)
    (he : e ∈ headerLinks (siteConfigWith b)) :
    (variantsOf e).length = 1 ∧
    ((isDocLink e = true ∧ isExternalLink e = false ∧ isSearchSlot e = false) ∨
     (isDocLink e = false ∧ isExternalLink e = true ∧ isSearchSlot e = false) ∨
     (isDocLink e = false ∧ isExternalLink e = false ∧ isSearchSlot e = true)) := by
  rw [headerLinks_siteConfigWith] at he
  simp only [List.mem_cons, List.mem_singleton, List.not_mem_nil, or_false] at he
  rcases he with rfl | rfl | rfl | rfl | rfl
  · exact ⟨rfl, Or.inl ⟨rfl, rfl, rfl⟩⟩
  · exact ⟨rfl, Or.inr (Or.inl ⟨rfl, rfl, rfl⟩)⟩
  · exact ⟨rfl, Or.inr (Or.inl ⟨rfl, rfl, rfl⟩)⟩
  · exact ⟨rfl, Or.inr (Or.inl ⟨rfl, rfl, rfl⟩)⟩
  · exact ⟨rfl, Or.inr (Or.inr ⟨rfl, rfl, rfl⟩)⟩

/-- C3 at the declared `baseUrl`, for the `Tutorials` entry. -/
theorem C3_exactly_one_variant_witness :
    obj [("href", str ("/" ++ "tutorials/")), ("label", str "Tutorials")] ∈
        headerLinks (siteConfigWith "/") ∧
      (variantsOf (obj [("href", str ("/" ++ "tutorials/")), ("label", str "Tutorials")])).length
        = 1 :=
  ⟨List.Mem.tail _ (List.Mem.head _),
   (C3_exactly_one_variant "/" _ (List.Mem.tail _ (List.Mem.head _))).1⟩

/-! C4: labels -/

/-- C4: every entry of `headerLinks` that is no search slot has a `label`
member, and it is a non-empty string. -/
theorem C4_links_have_label (b : String) (e : JSValue)
    (he : e ∈ headerLinks (siteConfigWith b)) (hs : isSearchSlot e = false) :
    ∃ l, e.get "label" = some (str l) ∧ l ≠ "" := by
  rw [headerLinks_siteConfigWith] at he
  simp only [List.mem_cons, List.mem_singleton, List.not_mem_nil, or_false] at he
  rcases he with rfl | rfl | rfl | rfl | rfl
  · exact ⟨"Getting Started", rfl, by decide⟩
  · exact ⟨"Tutorials", rfl, by decide⟩
  · exact ⟨"API Reference", rfl, by decide⟩
  · exact ⟨"GitHub", rfl, by decide⟩
  · exact absurd hs (by decide)

/-- C4 at the declared `baseUrl`, for the `Getting Started` entry. -/
theorem C4_links_have_label_witness :
    ∃ l, (obj [("doc", str "introduction"), ("label", str "Getting Started")]).get "label"
      = some (str l) ∧ l ≠ "" :=
  C4_links_have_label "/" _ (List.Mem.head _) rfl

/-! C5: the declared `baseUrl` -/

/-- C5: the member `baseUrl` of the exported configuration is the declared
constant, and it starts with `/` and ends with `/`. -/
theorem C5_baseUrl_slashes :
    siteConfig.getStr "baseUrl" = some baseUrl ∧
    hasPrefix "/" baseUrl ∧ hasSuffix "/" baseUrl ∧
    baseUrl.data.head? = some '/' ∧ baseUrl.data.getLast? = some '/' :=
  ⟨rfl, by decide, by decide, rfl, rfl⟩

/-! C6: the search integration -/

/-- C6, as stated, fails: the exported configuration has no member
`searchIntegration` at all (the access yields `undefined`), hence carries no
record under that name, with or without a non-empty `apiKey` and `indexName`. -/
theorem C6_searchIntegration_absent :
    siteConfig.get "searchIntegration" = none ∧
    siteConfig.has "searchIntegration" = false ∧
    (¬ ∃ si, siteConfig.get "searchIntegration" = some si) ∧
    ¬ ∃ si k n, siteConfig.get "searchIntegration" = some si ∧
        si.getStr "apiKey" = some k ∧ k ≠ "" ∧
        si.getStr "indexName" = some n ∧ n ≠ "" := by
  have hnone : siteConfig.get "searchIntegration" = none := rfl
  refine ⟨hnone, rfl, ?_, ?_⟩
  · rintro ⟨si, h⟩
    rw [hnone] at h
    cases h
  · rintro ⟨si, k, n, h, -⟩
    rw [hnone] at h
    cases h

/-- C6, amended: the exported configuration has no member `searchIntegration`;
it carries its search integration under the member `algolia`, a record whose
`apiKey` and `indexName` are non-empty strings. -/
theorem C6_algolia_present :
    siteConfig.get "searchIntegration" = none ∧
    siteConfig.has "searchIntegration" = false ∧
    siteConfig.has "algolia" = true ∧
    ∃ si k n, siteConfig.get "algolia" = some si ∧
        si.getStr "apiKey" = some k ∧ k ≠ "" ∧
        si.getStr "indexName" = some n ∧ n ≠ "" :=
  ⟨rfl, rfl, rfl,
   obj [("apiKey", str "207c27d819f967749142d8611de7cb19"), ("indexName", str "pytorch-dp")],
   "207c27d819f967749142d8611de7cb19", "pytorch-dp", rfl, rfl, by decide, rfl, by decide⟩

/-! C7: the site URL -/

/-- Dropping the leading characters other than `/` of `h ++ '/' :: rest`, where
`h` holds no `/`, leaves `'/' :: rest`. -/
theorem dropWhile_ne_slash (h rest : List Char) (hh : '/' ∉ h) :
    (h ++ '/' :: rest).dropWhile (fun c => c != '/') = '/' :: rest := by
  induction h with
  | nil => simp
  | cons c cs ih =>
    have hc : c ≠ '/' := fun hEq => hh (hEq ▸ List.mem_cons_self _ _)
    have hcs : '/' ∉ cs := fun hMem => hh (List.mem_cons_of_mem _ hMem)
    simp [hc, ih hcs]

/-- C7, as stated, fails: `url` is not a scheme, `://` and a host with nothing
after it, since whatever follows `://` up to the end holds a `/`. -/
theorem C7_url_not_scheme_host_only :
    ¬ ∃ u scheme host, siteConfig.getStr "url" = some u ∧ urlShape u scheme host "" := by
  rintro ⟨u, scheme, host, hu, hshape, -, -, hhost, -⟩
  have hurl : siteConfig.getStr "url" = some "https://facebookresearch.github.io/pytorch-dp" :=
    rfl
  rw [hurl] at hu
  cases hu
  have hrev := congrArg List.reverse hshape
  have hdrop := congrArg (List.dropWhile (fun c => c != '/')) hrev
  have hsplit : (scheme.data ++ "://".data ++ host.data ++ "".data).reverse =
      host.data.reverse ++ '/' :: ('/' :: ':' :: scheme.data.reverse) := by
    simp [String.data]
  have hlhs : List.dropWhile (fun c => c != '/')
      "https://facebookresearch.github.io/pytorch-dp".data.reverse =
      '/' :: 'o' :: "i.buhtig.hcraeserkoobecaf//:sptth".data := by decide
  rw [hsplit, dropWhile_ne_slash _ _ (by simpa using hhost), hlhs] at hdrop
  have hchar : 'o' = '/' := (List.cons.inj (List.cons.inj hdrop).2).1
  exact absurd hchar (by decide)

/-- C7, amended: `url` is an absolute URL made of the scheme `https`, the host
`facebookresearch.github.io` and, after the host, the path `/pytorch-dp`. -/
theorem C7_url_scheme_host_path :
    ∃ u, siteConfig.getStr "url" = some u ∧
      urlShape u "https" "facebookresearch.github.io" "/pytorch-dp" :=
  ⟨_, rfl, rfl, by decide, by decide, by decide, Or.inr rfl⟩

/-! C8: the search slot comes last -/

/-- C8: for every value `b` of `baseUrl`, the last entry of `headerLinks` is a
search slot, a search slot stands at no other position, and so no doc link or
external link follows one. -/
theorem C8_search_slot_last (b : String) :
    ((headerLinks (siteConfigWith b)).getLast?).map isSearchSlot = some true ∧
    (∀ (i : Nat) e, (headerLinks (siteConfigWith b))[i]? = some e → isSearchSlot e = true →
        i + 1 = (headerLinks (siteConfigWith b)).length) ∧
    (∀ (i j : Nat) e x, i < j → (headerLinks (siteConfigWith b))[i]? = some e →
        (headerLinks (siteConfigWith b))[j]? = some x → isSearchSlot e = true →
        isDocLink x = false ∧ isExternalLink x = false) := by
  have hlast : ∀ (i : Nat) e, (headerLinks (siteConfigWith b))[i]? = some e → isSearchSlot e = true →
      i + 1 = (headerLinks (siteConfigWith b)).length := by
    intro i e hi hs
    rw [headerLinks_siteConfigWith] at hi ⊢
    match i, hi with
    | 0, hi =>
      obtain rfl : _ = e := Option.some.inj hi
      exact Bool.noConfusion (hs : false = true)
    | 1, hi =>
      obtain rfl : _ = e := Option.some.inj hi
      exact Bool.noConfusion (hs : false = true)
    | 2, hi =>
      obtain rfl : _ = e := Option.some.inj hi
      exact Bool.noConfusion (hs : false = true)
    | 3, hi =>
      obtain rfl : _ = e := Option.some.inj hi
      exact Bool.noConfusion (hs : false = true)
    | 4, _ => rfl
    | n + 5, hi => cases hi
  refine ⟨rfl, hlast, ?_⟩
  intro i j e x hij hi hj hs
  have hlen := hlast i e hi hs
  have hjlt : j < (headerLinks (siteConfigWith b)).length := by
    rcases Nat.lt_or_ge j (headerLinks (siteConfigWith b)).length with h | h
    · exact h
    · rw [List.getElem?_eq_none h] at hj
      cases hj
  omega

/-! C9: one slash at the join -/

/-- When `b` ends with `/` and `rest` starts with a character other than `/`,
the text `b ++ rest` has `b` as a prefix, a `/` as the last character of that
prefix and a character other than `/` right after it. -/
theorem join_single_slash (b rest : String) (c : Char) (cs : List Char)
    (hb : hasSuffix "/" b) (hrest : rest.data = c :: cs) (hc : c ≠ '/') :
    hasPrefix b (b ++ rest) ∧ (b ++ rest).data[b.length - 1]? = some '/' ∧
      ∃ d, (b ++ rest).data[b.length]? = some d ∧ d ≠ '/' := by
  obtain ⟨t, ht⟩ := hb
  have hdata : b.data = t ++ ['/'] := ht.symm
  have hlen : b.length = t.length + 1 := by
    show b.data.length = _
    rw [hdata]; simp
  refine ⟨hasPrefix_append b rest, ?_, c, ?_, hc⟩
  · rw [String.data_append, hlen, hdata, Nat.add_sub_cancel, List.append_assoc,
      List.getElem?_append_right (Nat.le_refl _), Nat.sub_self]
    simp
  · rw [String.data_append, hrest]
    show (b.data ++ c :: cs)[b.data.length]? = some c
    rw [List.getElem?_append_right (Nat.le_refl _), Nat.sub_self]
    simp

/-- C9: for every `b` that ends with `/`, each URL the configuration builds from
`b` has `b` as a prefix, the `/` ending `b` right before the relative path and a
character other than `/` right after the prefix; the fourth script is
`/js/mathjax.js` for `b = "/"` and `/site/js/mathjax.js` for `b = "/site/"`. -/
theorem C9_single_slash_at_join (b : String) (hb : hasSuffix "/" b) :
    (∀ o ∈ builtFromBaseUrl (siteConfigWith b), ∃ u, o = some u ∧ hasPrefix b u ∧
        u.data[b.length - 1]? = some '/' ∧ ∃ d, u.data[b.length]? = some d ∧ d ≠ '/') ∧
    (builtFromBaseUrl (siteConfigWith b)).length = 5 ∧
    (stringArray (siteConfigWith "/") "scripts")[3]? = some (some "/js/mathjax.js") ∧
    (stringArray (siteConfigWith "/site/") "scripts")[3]? = some (some "/site/js/mathjax.js") := by
  refine ⟨?_, rfl, by decide, by decide⟩
  intro o ho
  have hbuilt : builtFromBaseUrl (siteConfigWith b) =
      [some (b ++ "tutorials/"), some (b ++ "api/"), some (b ++ "js/code_block_buttons.js"),
       some (b ++ "js/mathjax.js"), some (b ++ "css/code_block_buttons.css")] := rfl
  rw [hbuilt] at ho
  simp only [List.mem_cons, List.mem_singleton, List.not_mem_nil, or_false] at ho
  rcases ho with rfl | rfl | rfl | rfl | rfl
  · exact ⟨_, rfl, join_single_slash b _ 't' "utorials/".data hb rfl (by decide)⟩
  · exact ⟨_, rfl, join_single_slash b _ 'a' "pi/".data hb rfl (by decide)⟩
  · exact ⟨_, rfl, join_single_slash b _ 'j' "s/code_block_buttons.js".data hb rfl (by decide)⟩
  · exact ⟨_, rfl, join_single_slash b _ 'j' "s/mathjax.js".data hb rfl (by decide)⟩
  · exact ⟨_, rfl, join_single_slash b _ 'c' "ss/code_block_buttons.css".data hb rfl (by decide)⟩

/-- C9 at `b = "/site/"`: the built URLs there, among them
`/site/js/mathjax.js`, have one `/` at the join. -/
theorem C9_single_slash_at_join_witness :
    hasSuffix "/" "/site/" ∧
    ∀ o ∈ builtFromBaseUrl (siteConfigWith "/site/"), ∃ u, o = some u ∧ hasPrefix "/site/" u ∧
        u.data["/site/".length - 1]? = some '/' ∧
        ∃ d, u.data["/site/".length]? = some d ∧ d ≠ '/' :=
  ⟨by decide, (C9_single_slash_at_join "/site/" (by decide)).1⟩

/-! C10: repository URLs -/

/-- C10, as stated, fails: neither `editUrl` nor the `href` of the `GitHub`
header link begins with `https://github.com/`, `organizationName`, `/`,
`projectName`. -/
theorem C10_urls_not_from_organizationName :
    ¬ ∃ org proj edit link href,
        siteConfig.getStr "organizationName" = some org ∧
        siteConfig.getStr "projectName" = some proj ∧
        siteConfig.getStr "editUrl" = some edit ∧
        linkLabelled siteConfig "GitHub" = some link ∧ link.getStr "href" = some href ∧
        hasPrefix ("https://github.com/" ++ org ++ "/" ++ proj) edit ∧
        hasPrefix ("https://github.com/" ++ org ++ "/" ++ proj) href := by
  rintro ⟨org, proj, edit, link, href, horg, hproj, hedit, -, -, hpre, -⟩
  have h1 : siteConfig.getStr "organizationName" = some "pytorch" := rfl
  have h2 : siteConfig.getStr "projectName" = some "pytorch-dp" := rfl
  have h3 : siteConfig.getStr "editUrl" =
      some "https://github.com/facebookresearch/pytorch-dp/tree/master/docs/" := rfl
  rw [h1] at horg
  rw [h2] at hproj
  rw [h3] at hedit
  cases horg
  cases hproj
  cases hedit
  revert hpre
  decide

/-- C10, amended: `editUrl` and the `href` of the `GitHub` header link are
literals that both begin with `https://github.com/facebookresearch/` followed by
`projectName`. -/
theorem C10_urls_from_projectName :
    ∃ proj edit link href,
        siteConfig.getStr "projectName" = some proj ∧
        siteConfig.getStr "editUrl" = some edit ∧
        linkLabelled siteConfig "GitHub" = some link ∧ link.getStr "href" = some href ∧
        hasPrefix ("https://github.com/facebookresearch/" ++ proj) edit ∧
        hasPrefix ("https://github.com/facebookresearch/" ++ proj) href :=
  ⟨"pytorch-dp", "https://github.com/facebookresearch/pytorch-dp/tree/master/docs/",
   obj [("href", str "https://github.com/facebookresearch/pytorch-dp"), ("label", str "GitHub")],
   "https://github.com/facebookresearch/pytorch-dp", rfl, rfl, rfl, rfl, by decide, by decide⟩

end SiteConfig
